import Mathlib

/-!
Shallow embedding of the ascii-shader repository
(`src/ascii.shader` fragment stage and the `AsciiEffect` /
`createCharactersTexture` host wiring in `src/App.jsx`).

GLSL float arithmetic is modelled over ℚ with the GLSL builtins
(`floor`, `mod`, `clamp`, `mix`, `smoothstep`) given their exact
reference definitions.  Texture sampling is abstracted as a pure
function from UV coordinates to colors, matching the spec's view of
the compositor as a pure per-pixel function of its inputs.
-/

namespace AsciiShader

/-- GLSL `floor`, returned as a rational again (GLSL floor maps float to float). -/
def qfloor (x : ℚ) : ℚ := (⌊x⌋ : ℚ)

/-- GLSL `mod(x, y) = x - y * floor(x/y)`. -/
def qmod (x y : ℚ) : ℚ := x - y * qfloor (x / y)

/-- GLSL `clamp(x, lo, hi) = min(max(x, lo), hi)`. -/
def qclamp (x lo hi : ℚ) : ℚ := min (max x lo) hi

/-- GLSL `mix(x, y, a) = x*(1-a) + y*a`. -/
def glslMix (x y a : ℚ) : ℚ := x * (1 - a) + y * a

/-- GLSL `smoothstep(e0, e1, x)`: cubic Hermite after clamping
`(x-e0)/(e1-e0)` to [0,1]. -/
def smoothstep (e0 e1 x : ℚ) : ℚ :=
  let t := qclamp ((x - e0) / (e1 - e0)) 0 1
  t * t * (3 - 2 * t)

/-- A GLSL `vec4` color (r, g, b, a). -/
@[ext] structure Vec4 where
  r : ℚ
  g : ℚ
  b : ℚ
  a : ℚ
deriving DecidableEq

/-- Componentwise `mix` on vec4, as used by the shader's final blend line. -/
def mix4 (x y : Vec4) (t : ℚ) : Vec4 :=
  ⟨glslMix x.r y.r t, glslMix x.g y.g t, glslMix x.b y.b t, glslMix x.a y.a t⟩

/-- `dot(color, vec3(0.299, 0.587, 0.114))` from the shader's `greyscale`. -/
def lumaDot (r g b : ℚ) : ℚ := r * (299/1000) + g * (587/1000) + b * (114/1000)

/-- Shader `greyscale(color, strength) = mix(color, vec3(g), strength)`. -/
def greyscaleStrength (r g b strength : ℚ) : ℚ × ℚ × ℚ :=
  let gy := lumaDot r g b
  (glslMix r gy strength, glslMix g gy strength, glslMix b gy strength)

/-- Shader `greyscale(color) = greyscale(color, 1.0)`. -/
def greyscale (r g b : ℚ) : ℚ × ℚ × ℚ := greyscaleStrength r g b 1

/-- `scaleFactor = max(1.0, uCharactersCount / 20.0)` (shader line 33). -/
def scaleFactor (uCharactersCount : ℚ) : ℚ := max 1 (uCharactersCount / 20)

/-- Glyph index selection (shader lines 30 and 33-34):
`characterIndex = floor((uCharactersCount - 1.0) * greyscaled)` followed by
`characterIndex = floor(characterIndex * scaleFactor)`. -/
def selectIndex (uCharactersCount greyscaled : ℚ) : ℚ :=
  let characterIndex := qfloor ((uCharactersCount - 1) * greyscaled)
  qfloor (characterIndex * scaleFactor uCharactersCount)

/-- The invert branch (shader lines 25-27): `if (uInvert) greyscaled = 1.0 - greyscaled`. -/
def applyInvert (uInvert : Bool) (greyscaled : ℚ) : ℚ :=
  if uInvert then 1 - greyscaled else greyscaled

/-- Glyph index as a function of the incoming luminance and the invert flag
(shader lines 25-34 composed). -/
def selectIndexInv (uCharactersCount : ℚ) (uInvert : Bool) (greyscaled : ℚ) : ℚ :=
  selectIndex uCharactersCount (applyInvert uInvert greyscaled)

/-- One component of `pixelizedUV` (shader lines 19-21):
`cell = resolution / uCellSize; grid = 1.0 / cell;
pixelizedUV = grid * (0.5 + floor(uv / grid))`. -/
def pixelizedUVc (res uCellSize uvc : ℚ) : ℚ :=
  let cell := res / uCellSize
  let grid := 1 / cell
  grid * (1/2 + qfloor (uvc / grid))

/-- The glyph-mosaic color of a pixel (shader lines 19-44): cell quantization,
greyscale, invert, glyph selection, atlas lookup and recoloring, i.e. the
value of `asciiCharacter` just before the boundary blend. -/
def asciiCell (inputBuffer uCharacters : ℚ → ℚ → Vec4)
    (uCharactersCount uCellSize : ℚ) (uInvert : Bool)
    (resX resY uvx uvy : ℚ) : Vec4 :=
  let pixelized := inputBuffer (pixelizedUVc resX uCellSize uvx) (pixelizedUVc resY uCellSize uvy)
  let greyscaled := (greyscale pixelized.r pixelized.g pixelized.b).1
  let characterIndex := selectIndexInv uCharactersCount uInvert greyscaled
  let charPosX := qmod characterIndex 16
  let charPosY := qfloor (characterIndex / 16)
  let offsetX := charPosX / 16
  let offsetY := (-charPosY) / 16
  let charUVx := qmod (uvx * ((resX / uCellSize) / 16)) (1/16) - 0 + offsetX
  let charUVy := qmod (uvy * ((resY / uCellSize) / 16)) (1/16) - 1/16 + offsetY
  let asciiCharacter := uCharacters charUVx charUVy
  ⟨pixelized.r * asciiCharacter.r, pixelized.g * asciiCharacter.r,
   pixelized.b * asciiCharacter.r, pixelized.a⟩

/-- `float boundarySize = 0.1;` (shader line 46). -/
def boundarySize : ℚ := 1/10

/-- `transitionStart = 0.5 - (boundarySize / 16.0)` (shader line 47). -/
def transitionStart : ℚ := 1/2 - boundarySize / 16

/-- `transitionEnd = 0.5 + (boundarySize / 8.0)` (shader line 48). -/
def transitionEnd : ℚ := 1/2 + boundarySize / 8

/-- The whole per-pixel function `mainImage` (shader lines 18-54).
`uColor` is the declared-but-unread `uniform vec3 uColor`. -/
def mainImage (inputBuffer uCharacters : ℚ → ℚ → Vec4)
    (uCharactersCount uCellSize : ℚ) (uInvert : Bool) (uColor : ℚ × ℚ × ℚ)
    (resX resY uvx uvy : ℚ) : Vec4 :=
  let asciiCharacter :=
    asciiCell inputBuffer uCharacters uCharactersCount uCellSize uInvert resX resY uvx uvy
  let blendFactor := smoothstep transitionStart transitionEnd uvx
  let originalColor := inputBuffer uvx uvy
  mix4 originalColor asciiCharacter blendFactor

/-! ### Host-side atlas builder (`src/App.jsx`) -/

/-- `texture.wrapS = texture.wrapT = RepeatWrapping`. -/
inductive Wrapping
  | repeatWrapping
deriving DecidableEq

/-- `texture.minFilter = texture.magFilter = NearestFilter`. -/
inductive TexFilter
  | nearest
deriving DecidableEq

/-- One `context.fillText(char, x, y)` call recorded by the rasterizer. -/
structure DrawOp where
  char : Char
  x : ℚ
  y : ℚ
deriving DecidableEq

/-- `const rows = 16` in `createCharactersTexture`. -/
def atlasRows : ℕ := 16

/-- `const size = 1024` in `createCharactersTexture`. -/
def atlasSide : ℕ := 1024

/-- `const step = size / rows` (= 64 canvas pixels per grid cell). -/
def cellStep : ℚ := (atlasSide : ℚ) / (atlasRows : ℚ)

/-- The center point of the grid cell with coordinates `(cx, cy)`
(cells are `cellStep`-sided squares tiling the canvas from its top-left). -/
def cellCenter (cx cy : ℕ) : ℚ × ℚ :=
  ((cx : ℚ) * cellStep + cellStep / 2, (cy : ℚ) * cellStep + cellStep / 2)

/-- The drawing loop of `createCharactersTexture`:
`for i in 0..<characters.length`, `x = i % rows`, `y = floor(i / rows)`,
`fillText(characters[i], x*step + step/2, y*step + step/2)`. -/
def drawOps (characters : List Char) : List DrawOp :=
  (List.range characters.length).map fun i =>
    { char := characters.getD i ' '
      x := ((i % atlasRows : ℕ) : ℚ) * cellStep + cellStep / 2
      y := ((i / atlasRows : ℕ) : ℚ) * cellStep + cellStep / 2 }

/-- `throw new Error("Context not available")` — the spec's ResourceUnavailable. -/
inductive BuildError
  | resourceUnavailable
deriving DecidableEq

/-- The `CanvasTexture` returned by `createCharactersTexture`, as the record of
what was drawn and which sampling parameters were set. -/
structure CharactersTexture where
  size : ℕ
  fontSize : ℚ
  ops : List DrawOp
  wrapS : Wrapping
  wrapT : Wrapping
  minFilter : TexFilter
  magFilter : TexFilter
deriving DecidableEq

/-- `createCharactersTexture(characters, fontSize)` (App.jsx lines 175-207).
`contextAvailable` models whether `canvas.getContext("2d")` returns a context;
when it does not, the function throws before any glyph is drawn. -/
def createCharactersTexture (characters : List Char) (fontSize : ℚ)
    (contextAvailable : Bool) : Except BuildError CharactersTexture :=
  if contextAvailable then
    .ok { size := atlasSide
          fontSize := fontSize
          ops := drawOps characters
          wrapS := .repeatWrapping
          wrapT := .repeatWrapping
          minFilter := .nearest
          magFilter := .nearest }
  else
    .error .resourceUnavailable

/-- `color = "#ffffff"`, the constructor's default tint. -/
def whiteHex : String := "#ffffff"

/-- The uniforms held by a successfully constructed `AsciiEffect`. -/
structure AsciiEffectState where
  uCellSize : ℚ
  uCharactersCount : ℚ
  uColor : String
  uInvert : Bool
  uCharacters : CharactersTexture
deriving DecidableEq

/-- The `AsciiEffect` constructor (App.jsx lines 150-173): builds the uniform
map with `uCharactersCount = characters.length`, then calls
`createCharactersTexture` (whose failure propagates to the caller). -/
def asciiEffectInit (characters : List Char) (fontSize cellSize : ℚ)
    (color : String) (invert : Bool) (contextAvailable : Bool) :
    Except BuildError AsciiEffectState :=
  (createCharactersTexture characters fontSize contextAvailable).map fun tex =>
    { uCellSize := cellSize
      uCharactersCount := (characters.length : ℚ)
      uColor := color
      uInvert := invert
      uCharacters := tex }

/-! ### Helper lemmas -/

/-- The `i`-th recorded draw call, for `i` within the character list. -/
lemma drawOps_getElem (characters : List Char) (i : ℕ) (hi : i < characters.length) :
    (drawOps characters)[i]? =
      some { char := characters[i]
             x := ((i % atlasRows : ℕ) : ℚ) * cellStep + cellStep / 2
             y := ((i / atlasRows : ℕ) : ℚ) * cellStep + cellStep / 2 } := by
  unfold drawOps
  simp [List.getElem?_map, List.getElem?_range hi,
    List.getD_eq_getElem?_getD, List.getElem?_eq_getElem hi]

lemma smoothstep_of_le {e0 e1 x : ℚ} (h01 : e0 < e1) (hx : x ≤ e0) :
    smoothstep e0 e1 x = 0 := by
  unfold smoothstep qclamp
  have ht : (x - e0) / (e1 - e0) ≤ 0 :=
    div_nonpos_of_nonpos_of_nonneg (by linarith) (by linarith)
  rw [max_eq_right ht, min_eq_left (by norm_num)]
  ring

lemma smoothstep_of_ge {e0 e1 x : ℚ} (h01 : e0 < e1) (hx : e1 ≤ x) :
    smoothstep e0 e1 x = 1 := by
  unfold smoothstep qclamp
  have ht : (1:ℚ) ≤ (x - e0) / (e1 - e0) := (one_le_div (by linarith)).2 (by linarith)
  rw [max_eq_left (le_trans zero_le_one ht), min_eq_right ht]
  ring

lemma mix4_zero (x y : Vec4) : mix4 x y 0 = x := by
  cases x; cases y; simp [mix4, glslMix]

lemma mix4_one (x y : Vec4) : mix4 x y 1 = y := by
  cases x; cases y; simp [mix4, glslMix]

lemma transition_lt : transitionStart < transitionEnd := by
  unfold transitionStart transitionEnd boundarySize
  norm_num

/-! ### Claims -/

/-- C1 (counterexample): the claim "for N ≥ 20 the compensation factor is 1 and
the index equals floor((N-1)*grey)" fails at N = 40, grey = 1/2: the factor is
max(1, 40/20) = 2 ≠ 1 and the selected index is 38 ≠ 19 = floor(39·(1/2)). -/
theorem C1_counterexample :
    (0:ℚ) ≤ 1/2 ∧ (1/2:ℚ) ≤ 1 ∧ (20:ℚ) ≤ 40 ∧
    scaleFactor 40 ≠ 1 ∧ selectIndex 40 (1/2) ≠ qfloor ((40 - 1) * (1/2)) := by
  refine ⟨by norm_num, by norm_num, by norm_num, ?_, ?_⟩
  · unfold scaleFactor
    norm_num [max_def]
  · have h1 : scaleFactor 40 = 2 := by unfold scaleFactor; norm_num [max_def]
    have h2 : qfloor ((40 - 1) * (1/2 : ℚ)) = 19 := by unfold qfloor; norm_num
    simp only [selectIndex, h1, h2]
    unfold qfloor
    norm_num

/-- C1 (amended): for every grey ∈ [0,1] and every character count N with
1 ≤ N ≤ 20, the density-compensation factor equals 1 and the selected glyph
index equals floor((N-1)·grey) exactly — the compensation step is a no-op
precisely for N ≤ 20 (for N > 20 it scales the index by N/20). -/
theorem C1_compensation_noop (N grey : ℚ) (hN1 : 1 ≤ N) (hN20 : N ≤ 20)
    (hg0 : 0 ≤ grey) (hg1 : grey ≤ 1) :
    scaleFactor N = 1 ∧ selectIndex N grey = qfloor ((N - 1) * grey) := by
  have hsf : scaleFactor N = 1 :=
    max_eq_left ((div_le_one (by norm_num)).2 (by linarith))
  refine ⟨hsf, ?_⟩
  simp only [selectIndex, hsf, mul_one, qfloor, Int.floor_intCast]

/-- Witness for C1: the amended statement holds at N = 6, grey = 1/2. -/
theorem C1_witness :
    ((1:ℚ) ≤ 6 ∧ (6:ℚ) ≤ 20 ∧ (0:ℚ) ≤ 1/2 ∧ (1/2:ℚ) ≤ 1) ∧
    (scaleFactor 6 = 1 ∧ selectIndex 6 (1/2) = qfloor ((6 - 1) * (1/2))) :=
  ⟨⟨by norm_num, by norm_num, by norm_num, by norm_num⟩,
   C1_compensation_noop 6 (1/2) (by norm_num) (by norm_num) (by norm_num) (by norm_num)⟩

/-- C3: for 1 ≤ N < 20, the selected glyph index is monotonically
non-decreasing in grey over [0,1]. -/
theorem C3_index_monotone (N g1 g2 : ℚ) (hN1 : 1 ≤ N) (hN20 : N < 20)
    (hg0 : 0 ≤ g1) (h12 : g1 ≤ g2) (hg1 : g2 ≤ 1) :
    selectIndex N g1 ≤ selectIndex N g2 := by
  simp only [selectIndex]
  have hmul : (N - 1) * g1 ≤ (N - 1) * g2 :=
    mul_le_mul_of_nonneg_left h12 (by linarith)
  have hf : qfloor ((N - 1) * g1) ≤ qfloor ((N - 1) * g2) := by
    unfold qfloor
    exact_mod_cast Int.floor_mono hmul
  have hsf : (0:ℚ) ≤ scaleFactor N := le_trans zero_le_one (le_max_left _ _)
  unfold qfloor
  exact_mod_cast Int.floor_mono (mul_le_mul_of_nonneg_right hf hsf)

/-- Witness for C3: monotonicity at N = 5, grey 1/4 ≤ 3/4. -/
theorem C3_witness : selectIndex 5 (1/4) ≤ selectIndex 5 (3/4) :=
  C3_index_monotone 5 (1/4) (3/4) (by norm_num) (by norm_num) (by norm_num)
    (by norm_num) (by norm_num)

/-- C7: for every input cell color and character count N ≥ 1, the glyph index
selected with invert = true at the cell's luminance equals the glyph index
selected with invert = false at luminance 1 - grey. -/
theorem C7_invert_mirror (uCharactersCount r g b : ℚ) (hN : 1 ≤ uCharactersCount) :
    selectIndexInv uCharactersCount true (greyscale r g b).1 =
      selectIndexInv uCharactersCount false (1 - (greyscale r g b).1) := by
  simp [selectIndexInv, applyInvert]

/-- Witness for C7: the mirror identity at N = 2 on the mid-grey color. -/
theorem C7_witness :
    selectIndexInv 2 true (greyscale (1/2) (1/2) (1/2)).1 =
      selectIndexInv 2 false (1 - (greyscale (1/2) (1/2) (1/2)).1) :=
  C7_invert_mirror 2 (1/2) (1/2) (1/2) (by norm_num)

/-- C8: for positive resolution and cell size, the shader's sampling coordinate
`grid * (0.5 + floor(uv/grid))` with `grid = 1/cellCount` equals the spec's
`floor(uv/(1/cellCount))*(1/cellCount) + 0.5*(1/cellCount)`, the center of the
enclosing cell. -/
theorem C8_cell_center (uv res cellSize : ℚ) (hres : 0 < res) (hcs : 0 < cellSize) :
    pixelizedUVc res cellSize uv =
      qfloor (uv / (1 / (res / cellSize))) * (1 / (res / cellSize))
        + 1/2 * (1 / (res / cellSize)) := by
  simp only [pixelizedUVc]
  ring

/-- Witness for C8: the identity at uv = 1/3, resolution 440, cell size 22. -/
theorem C8_witness :
    (0:ℚ) < 440 ∧ (0:ℚ) < 22 ∧
    pixelizedUVc 440 22 (1/3) =
      qfloor ((1/3) / (1 / (440 / 22))) * (1 / (440 / 22)) + 1/2 * (1 / (440 / 22)) :=
  ⟨by norm_num, by norm_num, C8_cell_center (1/3) 440 22 (by norm_num) (by norm_num)⟩

/-- C10: the per-pixel output is independent of the configured tint color: two
runs of `mainImage` differing only in the `uColor` uniform coincide. -/
theorem C10_tint_independent (inputBuffer uCharacters : ℚ → ℚ → Vec4)
    (uCharactersCount uCellSize : ℚ) (uInvert : Bool) (c1 c2 : ℚ × ℚ × ℚ)
    (resX resY uvx uvy : ℚ) :
    mainImage inputBuffer uCharacters uCharactersCount uCellSize uInvert c1
        resX resY uvx uvy =
      mainImage inputBuffer uCharacters uCharactersCount uCellSize uInvert c2
        resX resY uvx uvy := rfl

/-- C2 (code divergence): constructing the effect with an empty character set
succeeds — no validation rejects it.  The constructor returns a usable state
with `uCharactersCount = 0` and an atlas with no glyphs drawn, contradicting
the spec's ConfigurationDegenerate fail-fast requirement. -/
theorem C2_empty_accepted :
    ∃ st : AsciiEffectState,
      asciiEffectInit [] 54 22 whiteHex false true = .ok st ∧
      st.uCharactersCount = 0 ∧ st.uCharacters.ops = [] := by
  refine ⟨_, rfl, ?_, ?_⟩ <;> simp [drawOps]

/-- C4: the compositor output is always the smoothstep-weighted mix of the
untouched input pixel and the glyph-mosaic color; at or below
`transitionStart` it equals the untouched input pixel at `uv` exactly, and at
or above `transitionEnd` it equals the glyph-mosaic color exactly. -/
theorem C4_blend_boundary (inputBuffer uCharacters : ℚ → ℚ → Vec4)
    (uCharactersCount uCellSize : ℚ) (uInvert : Bool) (uColor : ℚ × ℚ × ℚ)
    (resX resY uvx uvy : ℚ) :
    mainImage inputBuffer uCharacters uCharactersCount uCellSize uInvert uColor
        resX resY uvx uvy =
      mix4 (inputBuffer uvx uvy)
        (asciiCell inputBuffer uCharacters uCharactersCount uCellSize uInvert
          resX resY uvx uvy)
        (smoothstep transitionStart transitionEnd uvx) ∧
    (uvx ≤ transitionStart →
      mainImage inputBuffer uCharacters uCharactersCount uCellSize uInvert uColor
          resX resY uvx uvy = inputBuffer uvx uvy) ∧
    (transitionEnd ≤ uvx →
      mainImage inputBuffer uCharacters uCharactersCount uCellSize uInvert uColor
          resX resY uvx uvy =
        asciiCell inputBuffer uCharacters uCharactersCount uCellSize uInvert
          resX resY uvx uvy) := by
  refine ⟨rfl, ?_, ?_⟩
  · intro h
    simp only [mainImage]
    rw [smoothstep_of_le transition_lt h, mix4_zero]
  · intro h
    simp only [mainImage]
    rw [smoothstep_of_ge transition_lt h, mix4_one]

/-- Witness for C4: on a constant mid-grey input at uv.x = 2/5 (left of the
transition band) the output is exactly the untouched input pixel. -/
theorem C4_witness :
    mainImage (fun _ _ => ⟨1/2, 1/2, 1/2, 1⟩) (fun _ _ => ⟨1, 1, 1, 1⟩)
        2 22 false ⟨1, 1, 1⟩ 440 220 (2/5) (1/2) = ⟨1/2, 1/2, 1/2, 1⟩ :=
  (C4_blend_boundary (fun _ _ => ⟨1/2, 1/2, 1/2, 1⟩) (fun _ _ => ⟨1, 1, 1, 1⟩)
      2 22 false ⟨1, 1, 1⟩ 440 220 (2/5) (1/2)).2.1
    (by norm_num [transitionStart, boundarySize])

/-- C5: for every character sequence and font size, the symbol at ordinal
index i is rasterized at the center of the grid cell with coordinates
(i mod 16, i div 16), and the glyph count reported to the shader equals N. -/
theorem C5_glyph_placement (characters : List Char) (fontSize cellSize : ℚ)
    (color : String) (invert : Bool)
    (hN : 1 ≤ characters.length) (i : ℕ) (hi : i < characters.length) :
    ∃ st : AsciiEffectState,
      asciiEffectInit characters fontSize cellSize color invert true = .ok st ∧
      st.uCharactersCount = (characters.length : ℚ) ∧
      st.uCharacters.ops[i]? =
        some { char := characters[i]
               x := (cellCenter (i % 16) (i / 16)).1
               y := (cellCenter (i % 16) (i / 16)).2 } := by
  refine ⟨_, rfl, rfl, ?_⟩
  show (drawOps characters)[i]? = _
  rw [drawOps_getElem characters i hi]
  simp [cellCenter, atlasRows]

/-- Witness for C5: with characters "ab", symbol index 1 is drawn at the
center of grid cell (1, 0) and the reported count is 2. -/
theorem C5_witness :
    ∃ st : AsciiEffectState,
      asciiEffectInit ['a', 'b'] 54 22 whiteHex false true = .ok st ∧
      st.uCharactersCount = ((['a', 'b'].length : ℕ) : ℚ) ∧
      st.uCharacters.ops[1]? =
        some { char := ['a', 'b'][1]
               x := (cellCenter (1 % 16) (1 / 16)).1
               y := (cellCenter (1 % 16) (1 / 16)).2 } :=
  C5_glyph_placement ['a', 'b'] 54 22 whiteHex false (by norm_num) 1 (by norm_num)

/-- C6: the atlas build fails if and only if the 2D drawing context cannot be
acquired, and in that case the result is exactly the ResourceUnavailable
error — no atlas value is produced (the error carries no texture and the
failure precedes every draw call). -/
theorem C6_build_failure (characters : List Char) (fontSize : ℚ)
    (contextAvailable : Bool) :
    ((∃ e, createCharactersTexture characters fontSize contextAvailable = .error e) ↔
      contextAvailable = false) ∧
    (contextAvailable = false →
      createCharactersTexture characters fontSize contextAvailable =
        .error .resourceUnavailable) := by
  constructor
  · constructor
    · rintro ⟨e, he⟩
      cases contextAvailable
      · rfl
      · simp [createCharactersTexture] at he
    · rintro rfl
      exact ⟨.resourceUnavailable, rfl⟩
  · rintro rfl
    rfl

/-- Witness for C6: with the context unavailable, the build returns the
ResourceUnavailable error. -/
theorem C6_witness :
    createCharactersTexture ['a'] 54 false = .error .resourceUnavailable :=
  (C6_build_failure ['a'] 54 false).2 rfl

/-- C9 (counterexample): with 257 characters, the symbol at index 256 is drawn
at y = 1056, at or beyond the 1024-pixel canvas side — outside every cell of
the 16×16 grid (which tiles y ∈ [0, 1024)), so it is not "drawn into one of
the 16×16 grid cells". -/
theorem C9_counterexample :
    ∃ op : DrawOp, (drawOps (List.replicate 257 'a'))[256]? = some op ∧
      ¬ op.y < (atlasSide : ℚ) := by
  refine ⟨_, drawOps_getElem (List.replicate 257 'a') 256
    (by rw [List.length_replicate]; norm_num), ?_⟩
  show ¬ ((256 / atlasRows : ℕ) : ℚ) * cellStep + cellStep / 2 < (atlasSide : ℚ)
  norm_num [atlasRows, cellStep, atlasSide]

/-- C9 (amended): when the character sequence is longer than 256, the build
still completes without error, and each symbol at index i ≥ 256 is drawn at
x-column i mod 16 (inside the canvas width) but at a y-position at or beyond
the 1024-pixel canvas side, i.e. it is clipped off the canvas rather than
wrapped onto an earlier grid cell. -/
theorem C9_oversize_clipped (characters : List Char) (fontSize : ℚ)
    (hover : 256 < characters.length) (i : ℕ) (hi : i < characters.length)
    (h256 : 256 ≤ i) :
    (∃ tex, createCharactersTexture characters fontSize true = .ok tex) ∧
    ∃ op : DrawOp, (drawOps characters)[i]? = some op ∧
      (atlasSide : ℚ) ≤ op.y ∧ op.x < (atlasSide : ℚ) := by
  refine ⟨⟨_, rfl⟩, _, drawOps_getElem characters i hi, ?_, ?_⟩
  · show (atlasSide : ℚ) ≤ ((i / atlasRows : ℕ) : ℚ) * cellStep + cellStep / 2
    have h16 : (16:ℚ) ≤ ((i / atlasRows : ℕ) : ℚ) := by
      have h : (16:ℕ) ≤ i / atlasRows := by unfold atlasRows; omega
      exact_mod_cast h
    have hcs : cellStep = 64 := by unfold cellStep atlasSide atlasRows; norm_num
    rw [hcs]
    norm_num [atlasSide]
    linarith
  · show ((i % atlasRows : ℕ) : ℚ) * cellStep + cellStep / 2 < (atlasSide : ℚ)
    have h15 : ((i % atlasRows : ℕ) : ℚ) ≤ 15 := by
      have h : i % atlasRows ≤ 15 := by unfold atlasRows; omega
      exact_mod_cast h
    have hcs : cellStep = 64 := by unfold cellStep atlasSide atlasRows; norm_num
    rw [hcs]
    norm_num [atlasSide]
    linarith

/-- Witness for C9: the amended statement at 257 characters, index 256. -/
theorem C9_witness :
    (∃ tex, createCharactersTexture (List.replicate 257 'a') 54 true = .ok tex) ∧
    ∃ op : DrawOp, (drawOps (List.replicate 257 'a'))[256]? = some op ∧
      (atlasSide : ℚ) ≤ op.y ∧ op.x < (atlasSide : ℚ) :=
  C9_oversize_clipped (List.replicate 257 'a') 54
    (by rw [List.length_replicate]; norm_num) 256
    (by rw [List.length_replicate]; norm_num) (by norm_num)

end AsciiShader
